import Mathlib

/-!
Verification of the ssh-analysis log-parsing and enrichment pipeline
(`ssh_analysis/process_auth_logs.py` and `ssh_analysis/utils.py`).

The development shallowly embeds the pipeline:
* a model of Python values (`PyVal`) for the dynamic dictionaries handed
  around by the geo lookup,
* `safe_attr_get` / `safe_dict_get` from `utils.py`,
* `lookup_ip` (the GeoResolver),
* the fixed regular expression `PATTERN` as a deterministic backtracking
  matcher over character lists, faithful to Python `re.match` semantics
  (anchored at the start, lazy `.*?` and `(.+?)`, greedy `(.+)`,
  optional greedy `(...)?`, alternation order),
* `add_log_entry` including a model of
  `datetime.strptime(_, "%b %d %H:%M:%S").replace(year=2022)`,
* `parse_logs` (argument validation plus the line loop),
* `df_from_parsed_logs`: protobuf `MessageToJson` serialization of each
  event (with default fields), the newline-delimited JSON buffer handed to
  `pd.read_json(lines=True)`, `pd.json_normalize` of the nested geo dict,
  the index join, and the derived `date` / `week` / `hour` columns
  (`week` is the ISO-8601 week number, as computed by `isocalendar()`).

Machine integers are modelled as `Nat`/`Int` (Python integers are
arbitrary precision; the parsed port is a decimal digit string).
Failure paths (Python exceptions) are modelled with `Except`.
Log content is modelled at ASCII granularity (the `\w`/`\s`/`\d`
character classes are given their ASCII meaning).
-/

/-- A model of the Python values that flow through the geo lookup:
`None`, strings, numbers, booleans, lists and string-keyed dicts.
Floats carried by the geo database (latitude/longitude) are modelled by
an integer payload; the pipeline never computes with them, it only
passes them through. -/
inductive PyVal where
  | none : PyVal
  | str (s : String) : PyVal
  | num (n : Int) : PyVal
  | bool (b : Bool) : PyVal
  | list (xs : List PyVal) : PyVal
  | dict (entries : List (String × PyVal)) : PyVal

/-- First-match association-list lookup, the model of Python dict
subscription (our dicts never contain duplicate keys). -/
def lookupEntry : List (String × PyVal) → String → Option PyVal
  | [], _ => Option.none
  | (k, v) :: rest, key => if k = key then some v else lookupEntry rest key

/-- Python exceptions that can escape the modelled fragments. -/
inductive PyErr where
  | typeError : PyErr
deriving DecidableEq, Repr

/-- `utils.safe_attr_get`: `getattr` over an attribute namespace modelled
as an association list; an `AttributeError` (absent attribute) is caught
and becomes `None`.  An attribute whose value is Python `None` and an
absent attribute both yield `PyVal.none`, exactly as in the source. -/
def safeAttrGet (attrs : List (String × PyVal)) (attr : String) : PyVal :=
  match lookupEntry attrs attr with
  | some v => v
  | Option.none => PyVal.none

/-- `utils.safe_dict_get`: walks `keys` through nested dicts.
For each key: if the current value is Python `None` the function returns
`None`; a missing key raises `KeyError`, which is caught and becomes
`None`; subscripting a non-dict raises `TypeError`, which the source does
NOT catch, so it propagates.  The unused `type` parameter of the source
(no caller passes it) is omitted. -/
def safeDictGet : PyVal → List String → Except PyErr PyVal
  | d, [] => Except.ok d
  | PyVal.none, _ :: _ => Except.ok PyVal.none
  | PyVal.dict es, k :: ks =>
    match lookupEntry es k with
    | some v => safeDictGet v ks
    | Option.none => Except.ok PyVal.none
  | _, _ :: _ => Except.error PyErr.typeError

/-- Python `str()` as used by f-string interpolation in
`f"{safe_dict_get(country, 'names', 'en')} ({country_iso_code})"`:
`None` prints as the literal placeholder `"None"`.  The container cases
are unreachable for well-formed geo records. -/
def pyFStr : PyVal → String
  | PyVal.none => "None"
  | PyVal.str s => s
  | PyVal.num n => toString n
  | PyVal.bool b => if b then "True" else "False"
  | PyVal.list _ => "[...]"
  | PyVal.dict _ => "\x7b...\x7d"

/-- Assigning a Python value to a protobuf `string` field: accepts a
string or `None` (left unset), anything else raises `TypeError`. -/
def pyToOptStrE : PyVal → Except PyErr (Option String)
  | PyVal.none => Except.ok Option.none
  | PyVal.str s => Except.ok (some s)
  | _ => Except.error PyErr.typeError

/-- Python iteration, as used by `[div for div in safe_attr_get(result,
"subdivisions")]`: lists iterate their elements, strings iterate their
characters, dicts iterate their keys; iterating `None` or a number
raises `TypeError`. -/
def pyIter : PyVal → Except PyErr (List PyVal)
  | PyVal.list xs => Except.ok xs
  | PyVal.str s => Except.ok (s.data.map (fun c => PyVal.str (String.mk [c])))
  | PyVal.dict es => Except.ok (es.map (fun e => PyVal.str e.1))
  | _ => Except.error PyErr.typeError

/-- Assigning an iterable to a repeated protobuf `string` field: every
element must be a string. -/
def listToStrs : List PyVal → Except PyErr (List String)
  | [] => Except.ok []
  | PyVal.str s :: rest => (listToStrs rest).map (fun t => s :: t)
  | _ :: _ => Except.error PyErr.typeError

/-- The result object returned by `geolite2.lookup` for a found address.
Per the external interface (spec §6) the object always exposes
`continent`, `subdivisions`, `location` and `timezone` attributes
(`subdivisions` is always an iterable, empty when unknown; the others may
be `None`), and `get_info_dict()` returns the raw record dict, in which
`country` / `city` / `postal` may each be absent or partial. -/
structure GeoResult where
  continent : Option String
  subdivisions : List String
  location : Option (Int × Int)
  timezone : Option String
  info : PyVal

/-- Conversion of an optional string attribute value to a Python value. -/
def optStrPy : Option String → PyVal
  | Option.none => PyVal.none
  | some s => PyVal.str s

/-- The attribute namespace of the lookup result object, as consulted by
`safe_attr_get`. -/
def GeoResult.attrs (r : GeoResult) : List (String × PyVal) :=
  [("continent", optStrPy r.continent),
   ("subdivisions", PyVal.list (r.subdivisions.map PyVal.str)),
   ("location",
     match r.location with
     | Option.none => PyVal.none
     | some (la, lo) => PyVal.list [PyVal.num la, PyVal.num lo]),
   ("timezone", optStrPy r.timezone)]

/-- The `IPLookupData` protobuf message (field set as constructed at
`process_auth_logs.py:101-111`).  `none` / `[]` model unset proto3
fields; JSON serialization later substitutes the proto3 defaults. -/
structure IPLookupData where
  lat : Option Int := Option.none
  lon : Option Int := Option.none
  continent : Option String := Option.none
  country_iso_code : Option String := Option.none
  country_name : Option String := Option.none
  subdivisions : List String := []
  timezone : Option String := Option.none
  postal_code : Option String := Option.none
  city : Option String := Option.none
deriving DecidableEq, Repr

/-- The geolocation database: a read-only lookup table from IP address
strings to found records (spec §6); `none` models a miss, for any
address string, malformed ones included. -/
def GeoDB : Type := String → Option GeoResult

/-- `lookup_ip` (process_auth_logs.py:72-113): translated statement by
statement.  A miss returns `IPLookupData()` (all fields unset); a hit
extracts each field through `safe_attr_get` / `safe_dict_get`, builds
`country_name` by f-string interpolation, unpacks `location` when it is
not `None`, and constructs the message (`TypeError` on ill-typed values
propagates, as in Python). -/
def lookupIp (db : GeoDB) (ip : String) : Except PyErr IPLookupData :=
  match db ip with
  | Option.none => Except.ok {}
  | some result => do
    let data := result.info
    let continentV := safeAttrGet (GeoResult.attrs result) "continent"
    let country ← safeDictGet data ["country"]
    let countryIsoV ← safeDictGet country ["iso_code"]
    let namesEnV ← safeDictGet country ["names", "en"]
    let countryName := pyFStr namesEnV ++ " (" ++ pyFStr countryIsoV ++ ")"
    let subsV ← pyIter (safeAttrGet (GeoResult.attrs result) "subdivisions")
    let subs ← listToStrs subsV
    let cityV ← safeDictGet data ["city", "names", "en"]
    let postalV ← safeDictGet data ["postal", "code"]
    let latlon ← (match safeAttrGet (GeoResult.attrs result) "location" with
      | PyVal.none => Except.ok ((Option.none : Option Int), (Option.none : Option Int))
      | PyVal.list [PyVal.num la, PyVal.num lo] => Except.ok (some la, some lo)
      | _ => Except.error PyErr.typeError)
    let tzV := safeAttrGet (GeoResult.attrs result) "timezone"
    let continent ← pyToOptStrE continentV
    let countryIso ← pyToOptStrE countryIsoV
    let city ← pyToOptStrE cityV
    let postal ← pyToOptStrE postalV
    let tz ← pyToOptStrE tzV
    Except.ok { lat := latlon.1, lon := latlon.2, continent := continent,
                country_iso_code := countryIso,
                country_name := some countryName,
                subdivisions := subs, timezone := tz,
                postal_code := postal, city := city }

/-- Reading one field of a JSON-like object: a missing key and a
non-dict object both collapse to `None`. -/
def dGet (v : PyVal) (k : String) : PyVal :=
  match v with
  | PyVal.dict es =>
    (match lookupEntry es k with
     | some w => w
     | Option.none => PyVal.none)
  | _ => PyVal.none

/-- Well-formedness of a leaf value in the geo record: absent (`None`)
or a string. -/
def wfLeaf : PyVal → Bool
  | PyVal.none => true
  | PyVal.str _ => true
  | _ => false

/-- Well-formedness of a `names` sub-dict: absent, or a dict whose `en`
field is a leaf. -/
def wfNames : PyVal → Bool
  | PyVal.none => true
  | PyVal.dict es => wfLeaf (dGet (PyVal.dict es) "en")
  | _ => false

/-- Well-formedness of a `country` sub-dict. -/
def wfCountry : PyVal → Bool
  | PyVal.none => true
  | PyVal.dict es =>
    wfLeaf (dGet (PyVal.dict es) "iso_code") && wfNames (dGet (PyVal.dict es) "names")
  | _ => false

/-- Well-formedness of a `city` sub-dict. -/
def wfCity : PyVal → Bool
  | PyVal.none => true
  | PyVal.dict es => wfNames (dGet (PyVal.dict es) "names")
  | _ => false

/-- Well-formedness of a `postal` sub-dict. -/
def wfPostal : PyVal → Bool
  | PyVal.none => true
  | PyVal.dict es => wfLeaf (dGet (PyVal.dict es) "code")
  | _ => false

/-- Well-formedness of a found record's raw info dict: the record is a
dict whose `country`, `city` and `postal` fields, when present, have the
database shape (nested dicts with string leaves).  Any individual field
may be absent. -/
def wfInfo : PyVal → Bool
  | PyVal.dict es =>
    wfCountry (dGet (PyVal.dict es) "country") && wfCity (dGet (PyVal.dict es) "city")
      && wfPostal (dGet (PyVal.dict es) "postal")
  | _ => false

/-- Walks a key path through nested dicts, collapsing every absence to
`None`: the per-field reference extraction compared against `lookup_ip`. -/
def infoPath : PyVal → List String → PyVal
  | v, [] => v
  | PyVal.dict es, k :: ks =>
    match lookupEntry es k with
    | some v => infoPath v ks
    | Option.none => PyVal.none
  | _, _ :: _ => PyVal.none

/-- Conversion of a well-formed leaf to an optional string. -/
def pyToOptStr : PyVal → Option String
  | PyVal.str s => some s
  | _ => Option.none

/-- Reference field-by-field extraction of the geo data from a found
record: each output field depends only on its own part of the record. -/
def geoExtract (r : GeoResult) : IPLookupData :=
  { lat := r.location.map Prod.fst,
    lon := r.location.map Prod.snd,
    continent := r.continent,
    country_iso_code := pyToOptStr (infoPath r.info ["country", "iso_code"]),
    country_name := some (pyFStr (infoPath r.info ["country", "names", "en"])
      ++ " (" ++ pyFStr (infoPath r.info ["country", "iso_code"]) ++ ")"),
    subdivisions := r.subdivisions,
    timezone := r.timezone,
    postal_code := pyToOptStr (infoPath r.info ["postal", "code"]),
    city := pyToOptStr (infoPath r.info ["city", "names", "en"]) }

/-! ## The line matcher

`PATTERN` (process_auth_logs.py:31):

  `(\w+\s\d+\s\d+:\d+:\d+)\s.*?(Failed|Accepted)\spassword\sfor\s`
  `(invalid\suser\s)?(.+?)\sfrom\s(.+)\sport\s(\d+)`

applied with `re.match` (anchored at the start of the line, trailing
text allowed).  Within group 1 every greedy quantifier is followed by a
character it can never match (`\w`/`\d` vs `\s`/`:`), so group 1 parses
by maximal munch; the remaining quantifiers genuinely backtrack and are
modelled by preference-ordered searches: `.*?` and `(.+?)` try shorter
extents first, `(.+)` longer, `( ... )?` presence first. -/

/-- Python `\w` at ASCII granularity. -/
def isWordChar (c : Char) : Bool := c.isAlphanum || c == '_'

/-- Python `\s` at ASCII granularity. -/
def isSpaceChar (c : Char) : Bool :=
  c == ' ' || c == '\t' || c == '\n' || c == '\x0b' || c == '\x0c' || c == '\r'

/-- Python `\d` at ASCII granularity. -/
def isDigitChar (c : Char) : Bool := c.isDigit

/-- Maximal-munch split at the first character refuting `p`. -/
def spanP (p : Char → Bool) : List Char → List Char × List Char
  | [] => ([], [])
  | c :: cs =>
    if p c then
      let t := spanP p cs
      (c :: t.1, t.2)
    else ([], c :: cs)

/-- Consumes an exact literal, returning the remainder. -/
def dropLit : List Char → List Char → Option (List Char)
  | [], l => some l
  | _ :: _, [] => Option.none
  | c :: cs, d :: ds => if c = d then dropLit cs ds else Option.none

/-- Group 1, `\w+\s\d+\s\d+:\d+:\d+`, followed by the mandatory `\s`
outside the group; returns (captured text, remainder after the `\s`). -/
def parseGroup1 (l : List Char) : Option (List Char × List Char) :=
  let (w, r0) := spanP isWordChar l
  if w = [] then Option.none else
  match r0 with
  | s1 :: r1 =>
    if isSpaceChar s1 then
      let (d1, r2) := spanP isDigitChar r1
      if d1 = [] then Option.none else
      match r2 with
      | s2 :: r3 =>
        if isSpaceChar s2 then
          let (d2, r4) := spanP isDigitChar r3
          if d2 = [] then Option.none else
          match r4 with
          | ':' :: r5 =>
            let (d3, r6) := spanP isDigitChar r5
            if d3 = [] then Option.none else
            match r6 with
            | ':' :: r7 =>
              let (d4, r8) := spanP isDigitChar r7
              if d4 = [] then Option.none else
              match r8 with
              | s3 :: r9 =>
                if isSpaceChar s3 then
                  some (w ++ s1 :: d1 ++ s2 :: d2 ++ ':' :: d3 ++ ':' :: d4, r9)
                else Option.none
              | [] => Option.none
            | _ => Option.none
          | _ => Option.none
        else Option.none
      | [] => Option.none
    else Option.none
  | [] => Option.none

/-- `\sport\s(\d+)` : returns the port digits (group 6). -/
def matchPortTail (l : List Char) : Option (List Char) :=
  match l with
  | c :: r =>
    if isSpaceChar c then
      match dropLit "port".data r with
      | some (c2 :: r2) =>
        if isSpaceChar c2 then
          let (ds, _) := spanP isDigitChar r2
          if ds = [] then Option.none else some ds
        else Option.none
      | _ => Option.none
    else Option.none
  | [] => Option.none

/-- `(.+)\sport\s(\d+)` : group 5 is greedy, so the longest extent whose
tail still matches wins; `.` never matches a newline. -/
def matchHostPort : List Char → Option (List Char × List Char)
  | [] => Option.none
  | c :: rest =>
    if c = '\n' then Option.none
    else
      match matchHostPort rest with
      | some (h, p) => some (c :: h, p)
      | Option.none =>
        match matchPortTail rest with
        | some p => some ([c], p)
        | Option.none => Option.none

/-- `\sfrom\s` followed by the host/port tail. -/
def matchFromTail (l : List Char) : Option (List Char × List Char) :=
  match l with
  | c :: r =>
    if isSpaceChar c then
      match dropLit "from".data r with
      | some (c2 :: r2) => if isSpaceChar c2 then matchHostPort r2 else Option.none
      | _ => Option.none
    else Option.none
  | [] => Option.none

/-- `(.+?)\sfrom\s(.+)\sport\s(\d+)` : group 4 is lazy, so the shortest
extent whose tail matches wins. -/
def matchUserFrom : List Char → Option (List Char × List Char × List Char)
  | [] => Option.none
  | c :: rest =>
    if c = '\n' then Option.none
    else
      match matchFromTail rest with
      | some (h, p) => some ([c], h, p)
      | Option.none =>
        match matchUserFrom rest with
        | some (u, h, p) => some (c :: u, h, p)
        | Option.none => Option.none

/-- The literal `invalid\suser\s` of group 3; returns the captured text
and the remainder. -/
def matchInvalidLit (l : List Char) : Option (List Char × List Char) :=
  match dropLit "invalid".data l with
  | some (c :: r1) =>
    if isSpaceChar c then
      match dropLit "user".data r1 with
      | some (c2 :: r2) =>
        if isSpaceChar c2 then
          some ("invalid".data ++ c :: "user".data ++ [c2], r2)
        else Option.none
      | _ => Option.none
    else Option.none
  | _ => Option.none

/-- `(invalid\suser\s)?(.+?)\sfrom\s...` : the optional group is greedy,
so the marker is consumed when the rest of the pattern can still match;
otherwise the matcher falls back to leaving it out. -/
def matchInvalidUser (l : List Char) :
    Option (Option (List Char) × List Char × List Char × List Char) :=
  match matchInvalidLit l with
  | some (marker, r) =>
    (match matchUserFrom r with
     | some (u, h, p) => some (some marker, u, h, p)
     | Option.none =>
       match matchUserFrom l with
       | some (u, h, p) => some (Option.none, u, h, p)
       | Option.none => Option.none)
  | Option.none =>
    match matchUserFrom l with
    | some (u, h, p) => some (Option.none, u, h, p)
    | Option.none => Option.none

/-- `\spassword\sfor\s` followed by groups 3-6. -/
def afterOutcome (l : List Char) :
    Option (Option (List Char) × List Char × List Char × List Char) :=
  match l with
  | c1 :: r1 =>
    if isSpaceChar c1 then
      match dropLit "password".data r1 with
      | some (c2 :: r2) =>
        if isSpaceChar c2 then
          match dropLit "for".data r2 with
          | some (c3 :: r3) => if isSpaceChar c3 then matchInvalidUser r3 else Option.none
          | _ => Option.none
        else Option.none
      | _ => Option.none
    else Option.none
  | [] => Option.none

/-- One alternative of `(Failed|Accepted)` followed by the rest of the
pattern. -/
def tryOutcome (w : String) (l : List Char) :
    Option (String × Option (List Char) × List Char × List Char × List Char) :=
  match dropLit w.data l with
  | some r =>
    (match afterOutcome r with
     | some (inv, u, h, p) => some (w, inv, u, h, p)
     | Option.none => Option.none)
  | Option.none => Option.none

/-- `(Failed|Accepted)\spassword\sfor\s...` at the current position; the
alternation tries `Failed` first, as written in the pattern, and falls
back to `Accepted` when that alternative (or the rest of the pattern
after it) fails. -/
def matchOutcomeAt (l : List Char) :
    Option (String × Option (List Char) × List Char × List Char × List Char) :=
  match tryOutcome "Failed" l with
  | some res => some res
  | Option.none => tryOutcome "Accepted" l

/-- `.*?` : the lazy gap tries the current position first and extends one
non-newline character at a time. -/
def searchOutcome : List Char → Option (String × Option (List Char) × List Char × List Char × List Char)
  | [] => Option.none
  | c :: rest =>
    match matchOutcomeAt (c :: rest) with
    | some res => some res
    | Option.none => if c = '\n' then Option.none else searchOutcome rest

/-- The capture groups of a successful match of `PATTERN`, in the order
of `MATCH_MAP` (timestamp, outcome, optional invalid-user marker, user,
host/IP, port digits). -/
structure MatchedFields where
  tsToken : List Char
  outcome : String
  invalidUser : Option (List Char)
  user : List Char
  host : List Char
  portDigits : List Char
deriving DecidableEq, Repr

/-- `re.match(PATTERN, line)` over a character list. -/
def reMatchL (l : List Char) : Option MatchedFields :=
  match parseGroup1 l with
  | some (ts, r) =>
    (match searchOutcome r with
     | some (oc, inv, u, h, p) => some ⟨ts, oc, inv, u, h, p⟩
     | Option.none => Option.none)
  | Option.none => Option.none

/-- `re.match(PATTERN, line)` on one log line. -/
def reMatch (line : String) : Option MatchedFields := reMatchL line.data

/-! ## The event builder

`add_log_entry` (process_auth_logs.py:116-139) parses the captured
timestamp token with `datetime.strptime(_, "%b %d %H:%M:%S")` and then
`.replace(year=2022)`.  `_strptime` compiles the format to a regular
expression — `%b` is the case-insensitive three-letter month
alternation, whitespace in the format becomes `\s+`, and the numeric
directives are digit alternations that must consume the whole digit run
(`%d`: values 1-31 in one or two digits excluding `0`/`00`; `%H`: values
0-23; `%M`: values 0-59; `%S`: values 0-61) — requires the whole token
to be consumed, defaults the year to 1900 (so the day is validated
against the 1900 month lengths), and `datetime` construction rejects the
leap seconds 60/61 that `%S` alone would admit.  Any failure raises
`ValueError`, which propagates out of `parse_logs`. -/

/-- A calendar date-time (the model of `datetime.datetime`). -/
structure DateTime where
  year : Nat
  month : Nat
  day : Nat
  hour : Nat
  minute : Nat
  second : Nat
deriving DecidableEq, Repr

/-- Decimal value of a digit character. -/
def digitVal (c : Char) : Nat := c.toNat - 48

/-- Decimal value of a digit run (Python `int` on a digit string: total,
arbitrary precision). -/
def digitsToNat (ds : List Char) : Nat :=
  ds.foldl (fun a c => a * 10 + digitVal c) 0

/-- The case-insensitive `%b` month alternation of the C locale. -/
def monthOfAbbrev (cs : List Char) : Option Nat :=
  let t := String.mk (cs.map Char.toLower)
  if t = "jan" then some 1 else if t = "feb" then some 2
  else if t = "mar" then some 3 else if t = "apr" then some 4
  else if t = "may" then some 5 else if t = "jun" then some 6
  else if t = "jul" then some 7 else if t = "aug" then some 8
  else if t = "sep" then some 9 else if t = "oct" then some 10
  else if t = "nov" then some 11 else if t = "dec" then some 12
  else Option.none

/-- Month lengths of the (non-leap) year 1900, the default year against
which `strptime` validates the day. -/
def monthLen1900 (m : Nat) : Nat :=
  [31, 28, 31, 30, 31, 30, 31, 31, 30, 31, 30, 31].getD (m - 1) 0

/-- A numeric `strptime` field: the whole digit run must be consumed by
one alternative, so it is 1 or 2 digits long with the value in range
(`lo` excludes the forms `0`/`00` for `%d`). -/
def numFieldOk (ds : List Char) (lo hi : Nat) : Bool :=
  decide (1 ≤ ds.length) && decide (ds.length ≤ 2)
    && decide (lo ≤ digitsToNat ds) && decide (digitsToNat ds ≤ hi)

/-- `datetime.strptime(token, "%b %d %H:%M:%S")` followed by the
`datetime` range validation (year 1900).  Returns `none` where Python
raises `ValueError`. -/
def strptimeTs (l : List Char) : Option DateTime :=
  match l with
  | a :: b :: c :: r0 =>
    (match monthOfAbbrev [a, b, c] with
     | some mon =>
       let (ws1, r1) := spanP isSpaceChar r0
       if ws1 = [] then Option.none else
       let (dds, r2) := spanP isDigitChar r1
       if numFieldOk dds 1 31 = false then Option.none else
       if digitsToNat dds > monthLen1900 mon then Option.none else
       let (ws2, r3) := spanP isSpaceChar r2
       if ws2 = [] then Option.none else
       let (hds, r4) := spanP isDigitChar r3
       if numFieldOk hds 0 23 = false then Option.none else
       match r4 with
       | ':' :: r5 =>
         let (mds, r6) := spanP isDigitChar r5
         if numFieldOk mds 0 59 = false then Option.none else
         match r6 with
         | ':' :: r7 =>
           let (sds, r8) := spanP isDigitChar r7
           if numFieldOk sds 0 59 = false then Option.none else
           if r8 = [] then
             some ⟨1900, mon, digitsToNat dds, digitsToNat hds,
                   digitsToNat mds, digitsToNat sds⟩
           else Option.none
         | _ => Option.none
       | _ => Option.none
     | Option.none => Option.none)
  | _ => Option.none

/-- One parsed login-attempt event (the `SSHLogs.logs` protobuf record,
fields as assigned at process_auth_logs.py:120-137). -/
structure SSHLog where
  timestamp : DateTime
  validLoginAttempt : Bool
  usernameIsValid : Bool
  user : String
  ipAddress : String
  port : Nat
  ipLookupData : IPLookupData
deriving DecidableEq, Repr

/-- Errors escaping `parse_logs`: the argument-check `ValueError`
(`InvalidArgument` in the spec's taxonomy), the `strptime` `ValueError`,
and a propagated geo-lookup error. -/
inductive ParseErr where
  | invalidArg : ParseErr
  | badTimestamp : ParseErr
  | geoError : ParseErr
deriving DecidableEq, Repr

/-- `add_log_entry` (process_auth_logs.py:116-139): builds one event from
a match.  `strptime` failure aborts with `ValueError`; the year is then
replaced by the fixed constant 2022; `validLoginAttempt` compares the
outcome token with `"Accepted"`; `usernameIsValid` is the absence of the
group-3 marker; the port digits are coerced with `int`; the geo lookup
runs once, keyed on the captured address. -/
def addLogEntry (db : GeoDB) (m : MatchedFields) : Except ParseErr SSHLog :=
  match strptimeTs m.tsToken with
  | Option.none => Except.error ParseErr.badTimestamp
  | some d =>
    match lookupIp db (String.mk m.host) with
    | Except.error _ => Except.error ParseErr.geoError
    | Except.ok geo =>
      Except.ok { timestamp := { d with year := 2022 },
                  validLoginAttempt := m.outcome == "Accepted",
                  usernameIsValid := m.invalidUser.isNone,
                  user := String.mk m.user,
                  ipAddress := String.mk m.host,
                  port := digitsToNat m.portDigits,
                  ipLookupData := geo }

/-- The `parse` loop of `parse_logs` (process_auth_logs.py:154-163): one
line at a time, a non-matching line emits nothing, a matching line is
fed through `add_log_entry` and the event appended; an exception thrown
while building aborts the whole parse. -/
def parseLines (db : GeoDB) : List String → Except ParseErr (List SSHLog)
  | [] => Except.ok []
  | l :: ls =>
    match reMatch l with
    | Option.none => parseLines db ls
    | some m =>
      match addLogEntry db m with
      | Except.error e => Except.error e
      | Except.ok log => (parseLines db ls).map (fun rest => log :: rest)

/-- `parse_logs` (process_auth_logs.py:142-170).  The file system is a
parameter mapping a path to the lines `open` would yield; the stream
argument is its line list.  The precondition check
`not ((logfile_path is None) ^ (logfile is None))` raises `ValueError`
before any file is opened; then exactly one branch runs. -/
def parseLogs (fs : String → List String) (db : GeoDB)
    (logfilePath : Option String) (logfile : Option (List String)) :
    Except ParseErr (List SSHLog) :=
  if logfilePath.isNone = logfile.isNone then Except.error ParseErr.invalidArg
  else
    match logfilePath, logfile with
    | some path, Option.none => parseLines db (fs path)
    | Option.none, some stream => parseLines db stream
    | _, _ => Except.error ParseErr.invalidArg

/-- Recognizer for the argument-check `ValueError` of `parse_logs`. -/
def isInvalidArg : Except ParseErr (List SSHLog) → Bool
  | Except.error ParseErr.invalidArg => true
  | _ => false

/-! ## The table projection

`df_from_parsed_logs` (process_auth_logs.py:173-198): each event is
serialized with `MessageToJson(log, including_default_value_fields=True)`
onto one line of a newline-delimited JSON buffer; `pd.read_json(lines=True)`
reads the buffer back (inferring the datetime type of the `timestamp`
column from its RFC 3339 strings; an empty buffer yields an empty,
column-less frame); `df["ipLookupData"]` selects the nested geo dicts
(raising `KeyError` on the column-less empty frame); `pd.json_normalize`
flattens them; the flat columns are joined back on the row index; and the
derived `date` / `week` / `hour` string columns are appended. -/

/-- The decimal digit character for `k` (callers keep `k ≤ 9`). -/
def digitChar : Nat → Char
  | 0 => '0'
  | 1 => '1'
  | 2 => '2'
  | 3 => '3'
  | 4 => '4'
  | 5 => '5'
  | 6 => '6'
  | 7 => '7'
  | 8 => '8'
  | 9 => '9'
  | _ => '0'

/-- Two-digit zero-padded decimal, as printed by `%02d`. -/
def pad2 (n : Nat) : List Char := [digitChar (n / 10), digitChar (n % 10)]

/-- Four-digit zero-padded decimal, as printed by `%04d`. -/
def pad4 (n : Nat) : List Char :=
  [digitChar (n / 1000), digitChar (n / 100 % 10), digitChar (n / 10 % 10),
   digitChar (n % 10)]

/-- The protobuf JSON serialization of a `Timestamp` with zero
nanoseconds: `YYYY-MM-DDTHH:MM:SSZ`. -/
def rfc3339Chars (d : DateTime) : List Char :=
  pad4 d.year ++ '-' :: (pad2 d.month ++ '-' :: (pad2 d.day
    ++ 'T' :: (pad2 d.hour ++ ':' :: (pad2 d.minute ++ ':' :: (pad2 d.second ++ ['Z'])))))

/-- The datetime inference `pd.read_json` applies to the `timestamp`
column (a default-converted column name): parses `YYYY-MM-DDTHH:MM:SSZ`. -/
def parseRfc3339 : List Char → Option DateTime
  | [y1, y2, y3, y4, '-', m1, m2, '-', d1, d2, 'T',
     h1, h2, ':', n1, n2, ':', s1, s2, 'Z'] =>
    if y1.isDigit && y2.isDigit && y3.isDigit && y4.isDigit && m1.isDigit
        && m2.isDigit && d1.isDigit && d2.isDigit && h1.isDigit && h2.isDigit
        && n1.isDigit && n2.isDigit && s1.isDigit && s2.isDigit then
      some ⟨digitVal y1 * 1000 + digitVal y2 * 100 + digitVal y3 * 10 + digitVal y4,
            digitVal m1 * 10 + digitVal m2,
            digitVal d1 * 10 + digitVal d2,
            digitVal h1 * 10 + digitVal h2,
            digitVal n1 * 10 + digitVal n2,
            digitVal s1 * 10 + digitVal s2⟩
    else Option.none
  | _ => Option.none

/-- `str(datetime.date)`: `YYYY-MM-DD`. -/
def dateStr (d : DateTime) : String :=
  String.mk (pad4 d.year ++ '-' :: (pad2 d.month ++ '-' :: pad2 d.day))

/-- Gregorian leap year. -/
def isLeapYear (y : Nat) : Bool :=
  y % 4 = 0 && (y % 100 != 0 || y % 400 = 0)

/-- Month lengths for year `y`. -/
def monthLengths (y : Nat) : List Nat :=
  [31, if isLeapYear y then 29 else 28, 31, 30, 31, 30, 31, 31, 30, 31, 30, 31]

/-- Ordinal day of the year (1-based). -/
def dayOfYear (y m d : Nat) : Nat :=
  ((monthLengths y).take (m - 1)).foldl (· + ·) 0 + d

/-- Day of the week, 0 = Sunday (Sakamoto's method). -/
def dayOfWeekSun (y m d : Nat) : Nat :=
  let t := [0, 3, 2, 5, 0, 3, 5, 1, 4, 6, 2, 4]
  let y2 := if m < 3 then y - 1 else y
  (y2 + y2 / 4 - y2 / 100 + y2 / 400 + t.getD (m - 1) 0 + d) % 7

/-- ISO weekday, Monday = 1 .. Sunday = 7. -/
def isoWeekday (y m d : Nat) : Nat := (dayOfWeekSun y m d + 6) % 7 + 1

/-- Number of ISO weeks in year `y`: 53 when Jan 1 falls on a Thursday,
or on a Wednesday of a leap year; else 52. -/
def isoWeeksInYear (y : Nat) : Nat :=
  if isoWeekday y 1 1 = 4 || (isLeapYear y && isoWeekday y 1 1 = 3) then 53 else 52

/-- The ISO-8601 week number, as returned by `isocalendar().week`. -/
def isoWeek (y m d : Nat) : Nat :=
  let raw := (dayOfYear y m d + 10 - isoWeekday y m d) / 7
  if raw = 0 then isoWeeksInYear (y - 1)
  else if raw = 53 && isoWeeksInYear y = 52 then 1
  else raw

/-- `MessageToJson` of the embedded `IPLookupData` with
`including_default_value_fields=True`: every field appears, unset fields
carry their proto3 default (`0` / `""` / `[]`), and the snake_case proto
names become lowerCamelCase JSON names. -/
def geoJson (g : IPLookupData) : PyVal :=
  PyVal.dict
    [("lat", PyVal.num (g.lat.getD 0)),
     ("lon", PyVal.num (g.lon.getD 0)),
     ("continent", PyVal.str (g.continent.getD "")),
     ("countryIsoCode", PyVal.str (g.country_iso_code.getD "")),
     ("countryName", PyVal.str (g.country_name.getD "")),
     ("subdivisions", PyVal.list (g.subdivisions.map PyVal.str)),
     ("timezone", PyVal.str (g.timezone.getD "")),
     ("postalCode", PyVal.str (g.postal_code.getD "")),
     ("city", PyVal.str (g.city.getD ""))]

/-- `MessageToJson(log, including_default_value_fields=True)`: the JSON
object written onto one line of the buffer. -/
def serializeLog (log : SSHLog) : PyVal :=
  PyVal.dict
    [("timestamp", PyVal.str (String.mk (rfc3339Chars log.timestamp))),
     ("validLoginAttempt", PyVal.bool log.validLoginAttempt),
     ("usernameIsValid", PyVal.bool log.usernameIsValid),
     ("user", PyVal.str log.user),
     ("ipAddress", PyVal.str log.ipAddress),
     ("port", PyVal.num (Int.ofNat log.port)),
     ("ipLookupData", geoJson log.ipLookupData)]

/-- Keys of a JSON object. -/
def keysOf : PyVal → List String
  | PyVal.dict es => es.map Prod.fst
  | _ => []

/-- Key deduplication used for the frame's column set (only membership
is ever consulted). -/
def dedupKeys : List String → List String
  | [] => []
  | k :: ks =>
    if (dedupKeys ks).contains k then dedupKeys ks else k :: dedupKeys ks

/-- A pandas frame: the column set plus the row objects, in order. -/
structure Frame where
  columns : List String
  records : List PyVal

/-- `pd.read_json(buffer, lines=True)`: one row per JSON line, columns
the union of the keys; an empty buffer yields an empty, column-less
frame. -/
def readJsonLines (lines : List PyVal) : Frame :=
  { columns := dedupKeys (lines.flatMap keysOf), records := lines }

/-- Pandas errors escaping `df_from_parsed_logs`. -/
inductive PdErr where
  | keyError : PdErr
deriving DecidableEq, Repr

/-- `df[c]`: raises `KeyError` when the column does not exist. -/
def getCol (f : Frame) (c : String) : Except PdErr (List PyVal) :=
  if f.columns.contains c then Except.ok (f.records.map (fun r => dGet r c))
  else Except.error PdErr.keyError

/-- Typed readback of a string cell. -/
def pyAsStr : PyVal → String
  | PyVal.str s => s
  | _ => ""

/-- Typed readback of a numeric cell. -/
def pyAsInt : PyVal → Int
  | PyVal.num n => n
  | _ => 0

/-- Typed readback of a boolean cell. -/
def pyAsBool : PyVal → Bool
  | PyVal.bool b => b
  | _ => false

/-- Typed readback of a string-list cell. -/
def pyAsStrList : PyVal → List String
  | PyVal.list xs => xs.map pyAsStr
  | _ => []

/-- The scalar event columns of one row after `read_json` (the
`ipLookupData` column is dropped before the join). -/
structure BaseRow where
  timestamp : DateTime
  validLoginAttempt : Bool
  usernameIsValid : Bool
  user : String
  ipAddress : String
  port : Int
deriving DecidableEq, Repr

/-- The flattened geo columns produced by `pd.json_normalize`. -/
structure GeoRow where
  lat : Int
  lon : Int
  continent : String
  countryIsoCode : String
  countryName : String
  subdivisions : List String
  timezone : String
  postalCode : String
  city : String
deriving DecidableEq, Repr

/-- One row of the final dataframe: scalar event columns, flattened geo
columns, and the derived `date` / `week` / `hour` string columns. -/
structure Row where
  timestamp : DateTime
  validLoginAttempt : Bool
  usernameIsValid : Bool
  user : String
  ipAddress : String
  port : Int
  lat : Int
  lon : Int
  continent : String
  countryIsoCode : String
  countryName : String
  subdivisions : List String
  timezone : String
  postalCode : String
  city : String
  date : String
  week : String
  hour : String
deriving DecidableEq, Repr

/-- Readback of the scalar columns of one row, including the datetime
inference applied to the `timestamp` column. -/
def deserializeBase (v : PyVal) : BaseRow :=
  { timestamp := (parseRfc3339 (pyAsStr (dGet v "timestamp")).data).getD
      ⟨1970, 1, 1, 0, 0, 0⟩,
    validLoginAttempt := pyAsBool (dGet v "validLoginAttempt"),
    usernameIsValid := pyAsBool (dGet v "usernameIsValid"),
    user := pyAsStr (dGet v "user"),
    ipAddress := pyAsStr (dGet v "ipAddress"),
    port := pyAsInt (dGet v "port") }

/-- `pd.json_normalize` of one nested geo dict. -/
def normalizeGeo (v : PyVal) : GeoRow :=
  { lat := pyAsInt (dGet v "lat"),
    lon := pyAsInt (dGet v "lon"),
    continent := pyAsStr (dGet v "continent"),
    countryIsoCode := pyAsStr (dGet v "countryIsoCode"),
    countryName := pyAsStr (dGet v "countryName"),
    subdivisions := pyAsStrList (dGet v "subdivisions"),
    timezone := pyAsStr (dGet v "timezone"),
    postalCode := pyAsStr (dGet v "postalCode"),
    city := pyAsStr (dGet v "city") }

/-- The index join of the scalar and geo columns followed by the derived
columns: `date` is `str` of the calendar date, `week` is `str` of the
ISO week number, `hour` is `str` of the hour of day. -/
def mkRow (b : BaseRow) (g : GeoRow) : Row :=
  { timestamp := b.timestamp, validLoginAttempt := b.validLoginAttempt,
    usernameIsValid := b.usernameIsValid, user := b.user,
    ipAddress := b.ipAddress, port := b.port,
    lat := g.lat, lon := g.lon, continent := g.continent,
    countryIsoCode := g.countryIsoCode, countryName := g.countryName,
    subdivisions := g.subdivisions, timezone := g.timezone,
    postalCode := g.postalCode, city := g.city,
    date := dateStr b.timestamp,
    week := toString (isoWeek b.timestamp.year b.timestamp.month b.timestamp.day),
    hour := toString b.timestamp.hour }

/-- `df_from_parsed_logs` (process_auth_logs.py:173-198), step by step:
serialize, read the ND-JSON buffer, select `df["ipLookupData"]`
(`KeyError` on the column-less empty frame), normalize, join on the row
index, derive the calendar columns. -/
def dfFromParsedLogs (logs : List SSHLog) : Except PdErr (List Row) :=
  let jsonLines := logs.map serializeLog
  let df := readJsonLines jsonLines
  match getCol df "ipLookupData" with
  | Except.error e => Except.error e
  | Except.ok ipCol =>
    let dfMeta := ipCol.map normalizeGeo
    let base := df.records.map deserializeBase
    Except.ok ((base.zip dfMeta).map (fun p => mkRow p.1 p.2))

/-- The reference projection of one event straight to its row, compared
against the serialize/read/normalize/join pipeline. -/
def projectedRow (log : SSHLog) : Row :=
  { timestamp := log.timestamp,
    validLoginAttempt := log.validLoginAttempt,
    usernameIsValid := log.usernameIsValid,
    user := log.user,
    ipAddress := log.ipAddress,
    port := Int.ofNat log.port,
    lat := log.ipLookupData.lat.getD 0,
    lon := log.ipLookupData.lon.getD 0,
    continent := log.ipLookupData.continent.getD "",
    countryIsoCode := log.ipLookupData.country_iso_code.getD "",
    countryName := log.ipLookupData.country_name.getD "",
    subdivisions := log.ipLookupData.subdivisions,
    timezone := log.ipLookupData.timezone.getD "",
    postalCode := log.ipLookupData.postal_code.getD "",
    city := log.ipLookupData.city.getD "",
    date := dateStr log.timestamp,
    week := toString (isoWeek log.timestamp.year log.timestamp.month log.timestamp.day),
    hour := toString log.timestamp.hour }

/-- The timestamp ranges under which the model's JSON round trip is
faithful (every event built by the parser satisfies them). -/
def ValidDT (d : DateTime) : Prop :=
  1 ≤ d.year ∧ d.year ≤ 9999 ∧ 1 ≤ d.month ∧ d.month ≤ 12 ∧ 1 ≤ d.day
    ∧ d.day ≤ 31 ∧ d.hour ≤ 23 ∧ d.minute ≤ 59 ∧ d.second ≤ 59

instance (d : DateTime) : Decidable (ValidDT d) := by
  unfold ValidDT; infer_instance

/-! ## Concrete fixtures (the spec's §8 scenarios) -/

/-- §8 scenario: an accepted password line. -/
def lineA : String := "Mar 27 13:08:09 ip-10-77-20-248 sshd[1361]: Accepted password for ubuntu from 85.245.107.41 port 54259 ssh2\n"

/-- §8 scenario: a failed password line with the invalid-user marker. -/
def lineB : String := "Mar 27 13:09:00 host sshd[2]: Failed password for invalid user root from 1.2.3.4 port 22\n"

/-- §8 scenario: a line with no sshd auth content. -/
def lineC : String := "Mar 27 13:06:56 ip-10-77-20-248 systemd-logind[1118]: New seat seat0.\n"

/-- A geo database with no records. -/
def db0 : GeoDB := fun _ => Option.none

/-- The match of `lineA`. -/
def mA : MatchedFields :=
  ⟨"Mar 27 13:08:09".data, "Accepted", Option.none, "ubuntu".data,
   "85.245.107.41".data, "54259".data⟩

/-- The match of `lineB`. -/
def mB : MatchedFields :=
  ⟨"Mar 27 13:09:00".data, "Failed", some "invalid user ".data, "root".data,
   "1.2.3.4".data, "22".data⟩

/-- The event parsed from `lineA` (geo lookup missing). -/
def evA : SSHLog :=
  ⟨⟨2022, 3, 27, 13, 8, 9⟩, true, true, "ubuntu", "85.245.107.41", 54259, {}⟩

/-- The event parsed from `lineB` (geo lookup missing). -/
def evB : SSHLog :=
  ⟨⟨2022, 3, 27, 13, 9, 0⟩, false, false, "root", "1.2.3.4", 22, {}⟩

/-- A found geo record with several absent parts: no English country
name, no city, no postal code, no location, no timezone. -/
def rec1 : GeoResult :=
  { continent := some "EU", subdivisions := ["Lisboa"],
    location := Option.none, timezone := Option.none,
    info := PyVal.dict [("country", PyVal.dict [("iso_code", PyVal.str "PT")])] }

/-- A database holding only `rec1`. -/
def db1 : GeoDB := fun ip => if ip = "85.245.107.41" then some rec1 else Option.none

/-- A found geo record whose `country` field is entirely absent. -/
def rec2 : GeoResult :=
  { continent := Option.none, subdivisions := [],
    location := some (38, -9), timezone := some "Europe/Lisbon",
    info := PyVal.dict [("city", PyVal.dict [("names", PyVal.dict [("en", PyVal.str "Lisbon")])])] }

/-- A database holding only `rec2`. -/
def db2 : GeoDB := fun ip => if ip = "1.2.3.4" then some rec2 else Option.none

/-- A three-line log source: two matching lines around one non-matching
line. -/
def lines3 : List String := [lineA, lineC, lineB]

/-- Values Python may subscript along a well-formed path: `None` (the
guarded branch) or a dict. -/
def isNoneOrDict : PyVal → Bool
  | PyVal.none => true
  | PyVal.dict _ => true
  | _ => false

/-! ## Theorems -/

theorem isInvalidArg_eq_true_iff (r : Except ParseErr (List SSHLog)) :
    isInvalidArg r = true ↔ r = Except.error ParseErr.invalidArg := by
  cases r with
  | error e => cases e <;> simp [isInvalidArg]
  | ok v => simp [isInvalidArg]

theorem addLogEntry_ne_invalidArg (db : GeoDB) (m : MatchedFields) :
    addLogEntry db m ≠ Except.error ParseErr.invalidArg := by
  unfold addLogEntry
  split
  · simp
  · split <;> simp

theorem parseLines_cons_none (db : GeoDB) (l : String) (ls : List String)
    (hm : reMatch l = Option.none) :
    parseLines db (l :: ls) = parseLines db ls := by
  simp only [parseLines, hm]

theorem parseLines_cons_err (db : GeoDB) (l : String) (ls : List String)
    (m : MatchedFields) (e : ParseErr) (hm : reMatch l = some m)
    (hb : addLogEntry db m = Except.error e) :
    parseLines db (l :: ls) = Except.error e := by
  simp only [parseLines, hm, hb]

theorem parseLines_cons_ok (db : GeoDB) (l : String) (ls : List String)
    (m : MatchedFields) (log : SSHLog) (hm : reMatch l = some m)
    (hb : addLogEntry db m = Except.ok log) :
    parseLines db (l :: ls) = (parseLines db ls).map (fun rest => log :: rest) := by
  simp only [parseLines, hm, hb]

theorem parseLines_ne_invalidArg (db : GeoDB) (lines : List String) :
    parseLines db lines ≠ Except.error ParseErr.invalidArg := by
  induction lines with
  | nil => simp [parseLines]
  | cons l ls ih =>
    cases hm : reMatch l with
    | none => rw [parseLines_cons_none db l ls hm]; exact ih
    | some m =>
      cases hb : addLogEntry db m with
      | error e =>
        rw [parseLines_cons_err db l ls m e hm hb]
        intro hc
        injection hc with h1
        exact addLogEntry_ne_invalidArg db m (h1 ▸ hb)
      | ok log =>
        rw [parseLines_cons_ok db l ls m log hm hb]
        cases hr : parseLines db ls with
        | error e2 =>
          intro hc
          simp [Except.map] at hc
          exact ih (hr.trans (by rw [hc]))
        | ok rest => simp [Except.map]

theorem addLogEntry_ok_fields (db : GeoDB) (m : MatchedFields) (log : SSHLog)
    (hb : addLogEntry db m = Except.ok log) :
    (strptimeTs m.tsToken).isSome = true
      ∧ log.timestamp =
          { (strptimeTs m.tsToken).getD ⟨1900, 1, 1, 0, 0, 0⟩ with year := 2022 }
      ∧ log.validLoginAttempt = (m.outcome == "Accepted")
      ∧ log.usernameIsValid = m.invalidUser.isNone
      ∧ log.user = String.mk m.user
      ∧ log.ipAddress = String.mk m.host
      ∧ log.port = digitsToNat m.portDigits := by
  unfold addLogEntry at hb
  split at hb
  · exact absurd hb (by simp)
  · next d hd =>
    split at hb
    · exact absurd hb (by simp)
    · next geo hgeo =>
      injection hb with h1
      subst h1
      simp [hd]

theorem tryOutcome_shape (w : String) (l : List Char)
    (res : String × Option (List Char) × List Char × List Char × List Char)
    (h : tryOutcome w l = some res) :
    ∃ r, dropLit w.data l = some r
      ∧ afterOutcome r = some (res.2.1, res.2.2.1, res.2.2.2.1, res.2.2.2.2)
      ∧ res.1 = w := by
  cases hf : dropLit w.data l with
  | none =>
    have hstep : tryOutcome w l = Option.none := by
      unfold tryOutcome; rw [hf]
    rw [hstep] at h
    exact absurd h (by simp)
  | some r =>
    have hstep : tryOutcome w l
        = (match afterOutcome r with
           | some (inv, u, hh, p) => some (w, inv, u, hh, p)
           | Option.none => Option.none) := by
      unfold tryOutcome; rw [hf]
    rw [hstep] at h
    cases ha : afterOutcome r with
    | none => rw [ha] at h; exact absurd h (by simp)
    | some q =>
      rw [ha] at h
      obtain ⟨inv, u, hh, p⟩ := q
      injection h with h0
      subst h0
      exact ⟨r, rfl, ha, rfl⟩

theorem matchOutcomeAt_outcome (l : List Char)
    (res : String × Option (List Char) × List Char × List Char × List Char)
    (h : matchOutcomeAt l = some res) : res.1 = "Failed" ∨ res.1 = "Accepted" := by
  unfold matchOutcomeAt at h
  cases ht : tryOutcome "Failed" l with
  | some q =>
    rw [ht] at h
    injection h with h0
    obtain ⟨r0, -, -, hq⟩ := tryOutcome_shape "Failed" l q ht
    rw [h0] at hq
    exact Or.inl hq
  | none =>
    rw [ht] at h
    obtain ⟨r0, -, -, hq⟩ := tryOutcome_shape "Accepted" l res h
    exact Or.inr hq

theorem searchOutcome_outcome (l : List Char)
    (res : String × Option (List Char) × List Char × List Char × List Char)
    (h : searchOutcome l = some res) : res.1 = "Failed" ∨ res.1 = "Accepted" := by
  induction l with
  | nil => simp [searchOutcome] at h
  | cons c rest ih =>
    unfold searchOutcome at h
    split at h
    · next val heq =>
      injection h with h1
      exact h1 ▸ matchOutcomeAt_outcome _ val heq
    · split at h
      · exact absurd h (by simp)
      · exact ih h

theorem reMatch_outcome (line : String) (m : MatchedFields)
    (h : reMatch line = some m) : m.outcome = "Failed" ∨ m.outcome = "Accepted" := by
  unfold reMatch reMatchL at h
  split at h
  · split at h
    · next oc inv u hh p heq =>
      injection h with h1
      have := searchOutcome_outcome _ _ heq
      rw [← h1]
      simpa using this
    · exact absurd h (by simp)
  · exact absurd h (by simp)

/-- C1: For every input line fed to the parse loop, a non-matching line
produces no event and parsing continues, and every matching line
produces exactly one event appended to the returned collection, so the
returned collection holds one event per matching line in the order the
lines were encountered. -/
theorem parse_one_event_per_matching_line (db : GeoDB) (lines : List String)
    (evs : List SSHLog) (h : parseLines db lines = Except.ok evs) :
    evs = lines.filterMap
        (fun l => (reMatch l).bind (fun m => (addLogEntry db m).toOption))
      ∧ evs.length = lines.countP (fun l => (reMatch l).isSome) := by
  induction lines generalizing evs with
  | nil =>
    simp [parseLines] at h
    subst h
    simp
  | cons l ls ih =>
    cases hm : reMatch l with
    | none =>
      rw [parseLines_cons_none db l ls hm] at h
      obtain ⟨h1, h2⟩ := ih evs h
      have hf : ((reMatch l).bind fun m => (addLogEntry db m).toOption)
          = Option.none := by rw [hm]; rfl
      constructor
      · simp only [List.filterMap_cons, hf]
        exact h1
      · rw [List.countP_cons]
        simp [hm, h2]
    | some m =>
      cases hb : addLogEntry db m with
      | error e =>
        rw [parseLines_cons_err db l ls m e hm hb] at h
        exact absurd h (by simp)
      | ok log =>
        rw [parseLines_cons_ok db l ls m log hm hb] at h
        cases hr : parseLines db ls with
        | error e2 => rw [hr] at h; simp [Except.map] at h
        | ok rest =>
          rw [hr] at h
          simp only [Except.map] at h
          injection h with h0
          subst h0
          obtain ⟨h1, h2⟩ := ih rest hr
          constructor
          · have hf : ((reMatch l).bind fun m => (addLogEntry db m).toOption)
                = some log := by
              rw [hm]
              show (addLogEntry db m).toOption = some log
              rw [hb]
              rfl
            simp only [List.filterMap_cons, hf]
            rw [h1]
          · rw [List.countP_cons]
            simp [hm, h2]

/-- C1 witness: the three §8 scenario lines yield exactly the two events
of the two matching lines, in order. -/
theorem parse_one_event_per_matching_line_witness :
    parseLines db0 lines3 = Except.ok [evA, evB]
      ∧ [evA, evB].length = lines3.countP (fun l => (reMatch l).isSome) := by
  have h : parseLines db0 lines3 = Except.ok [evA, evB] := by rfl
  exact ⟨h, (parse_one_event_per_matching_line db0 lines3 [evA, evB] h).2⟩

/-- C2: For every log line matching the pattern, the built event's
`validLoginAttempt` field is true iff the captured outcome token is the
literal `"Accepted"`, and it is false when the token is `"Failed"`. -/
theorem validLogin_iff_accepted (db : GeoDB) (line : String) (m : MatchedFields)
    (log : SSHLog) (hm : reMatch line = some m)
    (hb : addLogEntry db m = Except.ok log) :
    (log.validLoginAttempt = true ↔ m.outcome = "Accepted")
      ∧ (m.outcome = "Failed" → log.validLoginAttempt = false)
      ∧ (m.outcome = "Failed" ∨ m.outcome = "Accepted") := by
  obtain ⟨-, -, hv, -⟩ := addLogEntry_ok_fields db m log hb
  refine ⟨by simp [hv], fun hf => by rw [hv, hf]; rfl, reMatch_outcome line m hm⟩

/-- C2 witness: the accepted §8 scenario line. -/
theorem validLogin_iff_accepted_witness :
    (evA.validLoginAttempt = true ↔ mA.outcome = "Accepted")
      ∧ (mA.outcome = "Failed" → evA.validLoginAttempt = false)
      ∧ (mA.outcome = "Failed" ∨ mA.outcome = "Accepted") :=
  validLogin_iff_accepted db0 lineA mA evA (by rfl) (by rfl)

/-- C3: For every log line matching the pattern, the built event's
`usernameIsValid` field is false iff the optional `invalid user ` marker
was captured before the username; when the marker is absent it is true. -/
theorem usernameValid_iff_marker_absent (db : GeoDB) (line : String)
    (m : MatchedFields) (log : SSHLog) (_hm : reMatch line = some m)
    (hb : addLogEntry db m = Except.ok log) :
    (log.usernameIsValid = false ↔ m.invalidUser.isSome = true)
      ∧ (m.invalidUser = Option.none → log.usernameIsValid = true) := by
  obtain ⟨-, -, -, hu, -⟩ := addLogEntry_ok_fields db m log hb
  constructor
  · rw [hu]; cases m.invalidUser <;> simp
  · intro h0; rw [hu, h0]; rfl

/-- C3 witness: the failed §8 scenario line, whose marker is captured. -/
theorem usernameValid_iff_marker_absent_witness :
    (evB.usernameIsValid = false ↔ mB.invalidUser.isSome = true)
      ∧ (mB.invalidUser = Option.none → evB.usernameIsValid = true) :=
  usernameValid_iff_marker_absent db0 lineB mB evB (by rfl) (by rfl)

/-- C6: `parse_logs` raises the `InvalidArgument` `ValueError` exactly
when not exactly one of the file path and the open stream is supplied;
the check fires before any I/O (in the violating case the result is that
error whatever the file system holds), and when exactly one argument is
supplied this error is never raised. -/
theorem parseLogs_invalidArg_iff (fs : String → List String) (db : GeoDB)
    (p : Option String) (f : Option (List String)) :
    (isInvalidArg (parseLogs fs db p f) = true ↔ p.isNone = f.isNone)
      ∧ (p.isNone = f.isNone →
           parseLogs fs db p f = Except.error ParseErr.invalidArg) := by
  have hback : p.isNone = f.isNone →
      parseLogs fs db p f = Except.error ParseErr.invalidArg := by
    intro heq
    unfold parseLogs
    rw [if_pos heq]
  refine ⟨⟨?_, fun heq => by rw [hback heq]; rfl⟩, hback⟩
  intro h
  by_contra hne
  rw [isInvalidArg_eq_true_iff] at h
  unfold parseLogs at h
  rw [if_neg hne] at h
  cases p with
  | none =>
    cases f with
    | none => exact hne rfl
    | some stream => exact parseLines_ne_invalidArg db stream h
  | some path =>
    cases f with
    | none => exact parseLines_ne_invalidArg db (fs path) h
    | some stream => exact hne rfl

/-- C6 witness: neither argument raises the error; a path alone does
not. -/
theorem parseLogs_invalidArg_iff_witness :
    parseLogs (fun _ => []) db0 Option.none Option.none
        = Except.error ParseErr.invalidArg
      ∧ isInvalidArg (parseLogs (fun _ => []) db0 (some "auth.log") Option.none)
        = false := by
  constructor
  · exact (parseLogs_invalidArg_iff (fun _ => []) db0 Option.none Option.none).2 rfl
  · have h := (parseLogs_invalidArg_iff (fun _ => []) db0 (some "auth.log")
      Option.none).1
    simpa using h

/-- C7: For every matched line, the event's timestamp is the captured
token parsed with the `"%b %d %H:%M:%S"` format, and its year component
is then set to the fixed constant 2022, the same for every event
whatever the input line. -/
theorem timestamp_strptime_fixed_year (db : GeoDB) (line : String)
    (m : MatchedFields) (log : SSHLog) (_hm : reMatch line = some m)
    (hb : addLogEntry db m = Except.ok log) :
    (strptimeTs m.tsToken).isSome = true
      ∧ log.timestamp =
          { (strptimeTs m.tsToken).getD ⟨1900, 1, 1, 0, 0, 0⟩ with year := 2022 }
      ∧ log.timestamp.year = 2022 := by
  obtain ⟨h1, h2, -⟩ := addLogEntry_ok_fields db m log hb
  exact ⟨h1, h2, by rw [h2]⟩

/-- C7 witness: the accepted §8 scenario line. -/
theorem timestamp_strptime_fixed_year_witness :
    (strptimeTs mA.tsToken).isSome = true
      ∧ evA.timestamp =
          { (strptimeTs mA.tsToken).getD ⟨1900, 1, 1, 0, 0, 0⟩ with year := 2022 }
      ∧ evA.timestamp.year = 2022 :=
  timestamp_strptime_fixed_year db0 lineA mA evA (by rfl) (by rfl)

theorem safeDictGet_nil (v : PyVal) : safeDictGet v [] = Except.ok v := by
  cases v <;> rfl

theorem safeDictGet_cons (v : PyVal) (k : String) (ks : List String)
    (h : isNoneOrDict v = true) :
    safeDictGet v (k :: ks) = safeDictGet (dGet v k) ks := by
  cases v
  case none => cases ks <;> rfl
  case dict es =>
    show (match lookupEntry es k with
          | some w => safeDictGet w ks
          | Option.none => Except.ok PyVal.none)
        = safeDictGet (dGet (PyVal.dict es) k) ks
    cases hL : lookupEntry es k with
    | none => simp only [dGet, hL]; cases ks <;> rfl
    | some w => simp only [dGet, hL]
  all_goals simp [isNoneOrDict] at h

theorem infoPath_nil (v : PyVal) : infoPath v [] = v := by
  cases v <;> rfl

theorem infoPath_cons (v : PyVal) (k : String) (ks : List String) :
    infoPath v (k :: ks) = infoPath (dGet v k) ks := by
  cases v
  case dict es =>
    show (match lookupEntry es k with
          | some w => infoPath w ks
          | Option.none => PyVal.none)
        = infoPath (dGet (PyVal.dict es) k) ks
    cases hL : lookupEntry es k with
    | none => simp only [dGet, hL]; cases ks <;> rfl
    | some w => simp only [dGet, hL]
  all_goals cases ks <;> rfl

theorem wfCountry_nd (v : PyVal) (h : wfCountry v = true) :
    isNoneOrDict v = true := by
  cases v <;> simp_all [wfCountry, isNoneOrDict]

theorem wfCity_nd (v : PyVal) (h : wfCity v = true) :
    isNoneOrDict v = true := by
  cases v <;> simp_all [wfCity, isNoneOrDict]

theorem wfPostal_nd (v : PyVal) (h : wfPostal v = true) :
    isNoneOrDict v = true := by
  cases v <;> simp_all [wfPostal, isNoneOrDict]

theorem wfNames_nd (v : PyVal) (h : wfNames v = true) :
    isNoneOrDict v = true := by
  cases v <;> simp_all [wfNames, isNoneOrDict]

theorem wfCountry_iso (v : PyVal) (h : wfCountry v = true) :
    wfLeaf (dGet v "iso_code") = true := by
  cases v <;> simp_all [wfCountry, dGet, wfLeaf]

theorem wfCountry_names (v : PyVal) (h : wfCountry v = true) :
    wfNames (dGet v "names") = true := by
  cases v <;> simp_all [wfCountry, dGet, wfNames]

theorem wfCity_names (v : PyVal) (h : wfCity v = true) :
    wfNames (dGet v "names") = true := by
  cases v <;> simp_all [wfCity, dGet, wfNames]

theorem wfNames_en (v : PyVal) (h : wfNames v = true) :
    wfLeaf (dGet v "en") = true := by
  cases v <;> simp_all [wfNames, dGet, wfLeaf]

theorem wfPostal_code (v : PyVal) (h : wfPostal v = true) :
    wfLeaf (dGet v "code") = true := by
  cases v <;> simp_all [wfPostal, dGet, wfLeaf]

theorem wfLeaf_pyToOptStrE (v : PyVal) (h : wfLeaf v = true) :
    pyToOptStrE v = Except.ok (pyToOptStr v) := by
  cases v <;> simp_all [wfLeaf, pyToOptStrE, pyToOptStr]

theorem pyToOptStrE_optStrPy (o : Option String) :
    pyToOptStrE (optStrPy o) = Except.ok o := by
  cases o <;> rfl

theorem listToStrs_map_str (ss : List String) :
    listToStrs (ss.map PyVal.str) = Except.ok ss := by
  induction ss with
  | nil => rfl
  | cons s rest ih => simp [listToStrs, ih, Except.map]

theorem attrs_continent (r : GeoResult) :
    safeAttrGet (GeoResult.attrs r) "continent" = optStrPy r.continent := rfl

theorem attrs_subdivisions (r : GeoResult) :
    safeAttrGet (GeoResult.attrs r) "subdivisions"
      = PyVal.list (r.subdivisions.map PyVal.str) := rfl

theorem attrs_timezone (r : GeoResult) :
    safeAttrGet (GeoResult.attrs r) "timezone" = optStrPy r.timezone := rfl

theorem except_ok_bind {α β : Type} (a : α) (f : α → Except PyErr β) :
    (Except.ok a : Except PyErr α) >>= f = f a := rfl

theorem pyIter_list (xs : List PyVal) : pyIter (PyVal.list xs) = Except.ok xs := rfl

theorem lookupIp_found (db : GeoDB) (ip : String) (r : GeoResult)
    (hdb : db ip = some r) (hwf : wfInfo r.info = true) :
    lookupIp db ip = Except.ok (geoExtract r) := by
  obtain ⟨cont, subs, loc, tz, info⟩ := r
  cases info
  case dict es =>
    simp only [wfInfo, Bool.and_eq_true] at hwf
    obtain ⟨⟨hC, hCity⟩, hPostal⟩ := hwf
    have h1 : safeDictGet (PyVal.dict es) ["country"]
        = Except.ok (dGet (PyVal.dict es) "country") := by
      rw [safeDictGet_cons (PyVal.dict es) _ _ rfl, safeDictGet_nil]
    have h2 : safeDictGet (dGet (PyVal.dict es) "country") ["iso_code"]
        = Except.ok (dGet (dGet (PyVal.dict es) "country") "iso_code") := by
      rw [safeDictGet_cons _ _ _ (wfCountry_nd _ hC), safeDictGet_nil]
    have h3 : safeDictGet (dGet (PyVal.dict es) "country") ["names", "en"]
        = Except.ok (dGet (dGet (dGet (PyVal.dict es) "country") "names") "en") := by
      rw [safeDictGet_cons _ _ _ (wfCountry_nd _ hC),
          safeDictGet_cons _ _ _ (wfNames_nd _ (wfCountry_names _ hC)),
          safeDictGet_nil]
    have h4 : safeDictGet (PyVal.dict es) ["city", "names", "en"]
        = Except.ok (dGet (dGet (dGet (PyVal.dict es) "city") "names") "en") := by
      rw [safeDictGet_cons (PyVal.dict es) _ _ rfl,
          safeDictGet_cons _ _ _ (wfCity_nd _ hCity),
          safeDictGet_cons _ _ _ (wfNames_nd _ (wfCity_names _ hCity)),
          safeDictGet_nil]
    have h5 : safeDictGet (PyVal.dict es) ["postal", "code"]
        = Except.ok (dGet (dGet (PyVal.dict es) "postal") "code") := by
      rw [safeDictGet_cons (PyVal.dict es) _ _ rfl,
          safeDictGet_cons _ _ _ (wfPostal_nd _ hPostal), safeDictGet_nil]
    have l1 := wfLeaf_pyToOptStrE _ (wfCountry_iso _ hC)
    have l2 := wfLeaf_pyToOptStrE _ (wfNames_en _ (wfCity_names _ hCity))
    have l3 := wfLeaf_pyToOptStrE _ (wfPostal_code _ hPostal)
    have p1 : infoPath (PyVal.dict es) ["country", "iso_code"]
        = dGet (dGet (PyVal.dict es) "country") "iso_code" := by
      rw [infoPath_cons, infoPath_cons, infoPath_nil]
    have p2 : infoPath (PyVal.dict es) ["country", "names", "en"]
        = dGet (dGet (dGet (PyVal.dict es) "country") "names") "en" := by
      rw [infoPath_cons, infoPath_cons, infoPath_cons, infoPath_nil]
    have p3 : infoPath (PyVal.dict es) ["city", "names", "en"]
        = dGet (dGet (dGet (PyVal.dict es) "city") "names") "en" := by
      rw [infoPath_cons, infoPath_cons, infoPath_cons, infoPath_nil]
    have p4 : infoPath (PyVal.dict es) ["postal", "code"]
        = dGet (dGet (PyVal.dict es) "postal") "code" := by
      rw [infoPath_cons, infoPath_cons, infoPath_nil]
    rcases loc with _ | ⟨la, lo⟩ <;>
      simp only [lookupIp, hdb, attrs_continent, attrs_subdivisions, attrs_timezone,
        h1, h2, h3, h4, h5, l1, l2, l3, except_ok_bind, pyToOptStrE_optStrPy,
        pyIter_list, listToStrs_map_str, geoExtract, p1, p2, p3, p4,
        Option.map_none', Option.map_some'] <;>
      rfl
  all_goals simp [wfInfo] at hwf

/-- C4: `lookup_ip` never raises for any input IP string, valid or
invalid: an address the database does not hold yields an all-unknown
`IPLookupData`, and for a found record every output field is extracted
from its own part of the record alone, so an absent continent, country,
subdivision list, city, postal code, location or timezone neither raises
nor blocks the other fields. -/
theorem lookupIp_never_raises (db : GeoDB) (ip : String) :
    (db ip = Option.none → lookupIp db ip = Except.ok {})
      ∧ (∀ r : GeoResult, db ip = some r → wfInfo r.info = true →
          lookupIp db ip = Except.ok (geoExtract r)) := by
  constructor
  · intro h
    simp [lookupIp, h]
  · intro r hdb hwf
    exact lookupIp_found db ip r hdb hwf

/-- C4 witness: a record with absent country name, city, postal code,
location and timezone is extracted field by field without error, and a
missed address yields the all-unknown record. -/
theorem lookupIp_never_raises_witness :
    lookupIp db1 "85.245.107.41" = Except.ok (geoExtract rec1)
      ∧ lookupIp db1 "not an ip" = Except.ok {} :=
  ⟨(lookupIp_never_raises db1 "85.245.107.41").2 rec1 rfl rfl,
   (lookupIp_never_raises db1 "not an ip").1 rfl⟩

/-- C9: For every IP address found in the database, `countryName` is
synthesized as `"<localized name> (<ISO code>)"`; an unknown part is
interpolated as the unmodified `"None"` placeholder in that same format,
and an unknown country raises no exception. -/
theorem countryName_synthesized (db : GeoDB) (ip : String) (r : GeoResult)
    (hdb : db ip = some r) (hwf : wfInfo r.info = true) :
    (lookupIp db ip).map (fun d => d.country_name)
        = Except.ok (some (pyFStr (infoPath r.info ["country", "names", "en"])
            ++ " (" ++ pyFStr (infoPath r.info ["country", "iso_code"]) ++ ")"))
      ∧ pyFStr PyVal.none = "None" := by
  rw [lookupIp_found db ip r hdb hwf]
  exact ⟨rfl, rfl⟩

/-- C9 witness: a record with no `country` field at all synthesizes the
placeholder form `"None (None)"` without raising. -/
theorem countryName_synthesized_witness :
    (lookupIp db2 "1.2.3.4").map (fun d => d.country_name)
        = Except.ok (some (pyFStr (infoPath rec2.info ["country", "names", "en"])
            ++ " (" ++ pyFStr (infoPath rec2.info ["country", "iso_code"]) ++ ")"))
      ∧ pyFStr PyVal.none = "None" :=
  countryName_synthesized db2 "1.2.3.4" rec2 rfl rfl

theorem digitChar_isDigit (k : Nat) : (digitChar k).isDigit = true := by
  unfold digitChar
  split <;> rfl

theorem digitVal_digitChar (k : Nat) (h : k ≤ 9) : digitVal (digitChar k) = k := by
  interval_cases k <;> rfl

theorem parse_rfc3339_roundtrip (d : DateTime) (h : ValidDT d) :
    parseRfc3339 (rfc3339Chars d) = some d := by
  obtain ⟨y, mo, da, ho, mi, se⟩ := d
  obtain ⟨h1, h2, h3, h4, h5, h6, h7, h8, h9⟩ := h
  dsimp only at h1 h2 h3 h4 h5 h6 h7 h8 h9
  simp only [rfc3339Chars, pad4, pad2, List.cons_append, List.nil_append]
  simp only [parseRfc3339, digitChar_isDigit, Bool.and_self, Bool.and_true, if_true]
  simp only [Option.some.injEq, DateTime.mk.injEq]
  refine ⟨?_, ?_, ?_, ?_, ?_, ?_⟩
  · rw [digitVal_digitChar (y / 1000) (by omega),
        digitVal_digitChar (y / 100 % 10) (by omega),
        digitVal_digitChar (y / 10 % 10) (by omega),
        digitVal_digitChar (y % 10) (by omega)]
    omega
  · rw [digitVal_digitChar (mo / 10) (by omega),
        digitVal_digitChar (mo % 10) (by omega)]
    omega
  · rw [digitVal_digitChar (da / 10) (by omega),
        digitVal_digitChar (da % 10) (by omega)]
    omega
  · rw [digitVal_digitChar (ho / 10) (by omega),
        digitVal_digitChar (ho % 10) (by omega)]
    omega
  · rw [digitVal_digitChar (mi / 10) (by omega),
        digitVal_digitChar (mi % 10) (by omega)]
    omega
  · rw [digitVal_digitChar (se / 10) (by omega),
        digitVal_digitChar (se % 10) (by omega)]
    omega

theorem deserializeBase_serializeLog (log : SSHLog) (h : ValidDT log.timestamp) :
    deserializeBase (serializeLog log)
      = ⟨log.timestamp, log.validLoginAttempt, log.usernameIsValid, log.user,
         log.ipAddress, Int.ofNat log.port⟩ := by
  have h0 : deserializeBase (serializeLog log)
      = ⟨(parseRfc3339 (rfc3339Chars log.timestamp)).getD ⟨1970, 1, 1, 0, 0, 0⟩,
         log.validLoginAttempt, log.usernameIsValid, log.user,
         log.ipAddress, Int.ofNat log.port⟩ := rfl
  rw [h0, parse_rfc3339_roundtrip log.timestamp h]
  rfl

theorem map_pyAsStr_strs (ss : List String) :
    (ss.map PyVal.str).map pyAsStr = ss := by
  induction ss with
  | nil => rfl
  | cons s r ih => simp [ih, pyAsStr]

theorem normalizeGeo_geoJson (g : IPLookupData) :
    normalizeGeo (geoJson g)
      = ⟨g.lat.getD 0, g.lon.getD 0, g.continent.getD "", g.country_iso_code.getD "",
         g.country_name.getD "", g.subdivisions, g.timezone.getD "",
         g.postal_code.getD "", g.city.getD ""⟩ := by
  have h0 : normalizeGeo (geoJson g)
      = ⟨g.lat.getD 0, g.lon.getD 0, g.continent.getD "", g.country_iso_code.getD "",
         g.country_name.getD "", (g.subdivisions.map PyVal.str).map pyAsStr,
         g.timezone.getD "", g.postal_code.getD "", g.city.getD ""⟩ := rfl
  rw [h0, map_pyAsStr_strs]

theorem mkRow_roundtrip (log : SSHLog) (h : ValidDT log.timestamp) :
    mkRow (deserializeBase (serializeLog log))
        (normalizeGeo (dGet (serializeLog log) "ipLookupData"))
      = projectedRow log := by
  have hg : dGet (serializeLog log) "ipLookupData" = geoJson log.ipLookupData := rfl
  rw [hg, deserializeBase_serializeLog log h, normalizeGeo_geoJson]
  rfl

theorem dedupKeys_contains (xs : List String) (a : String)
    (h : xs.contains a = true) : (dedupKeys xs).contains a = true := by
  induction xs with
  | nil => simp at h
  | cons k ks ih =>
    simp only [List.contains_cons, Bool.or_eq_true] at h
    unfold dedupKeys
    rcases h with h | h
    · have hak : a = k := by simpa using h
      subst hak
      split
      · next hc => exact hc
      · simp only [List.contains_cons, Bool.or_eq_true]
        exact Or.inl (by simp)
    · split
      · exact ih h
      · simp only [List.contains_cons, Bool.or_eq_true]
        exact Or.inr (ih h)

theorem getCol_ip_ok (l0 : SSHLog) (ls : List SSHLog) :
    getCol (readJsonLines ((l0 :: ls).map serializeLog)) "ipLookupData"
      = Except.ok (((l0 :: ls).map serializeLog).map
          (fun r => dGet r "ipLookupData")) := by
  have hmem : "ipLookupData" ∈ ((l0 :: ls).map serializeLog).flatMap keysOf := by
    rw [List.map_cons, List.flatMap_cons]
    apply List.mem_append_left
    show "ipLookupData" ∈ keysOf (serializeLog l0)
    simp [keysOf, serializeLog]
  have hc := dedupKeys_contains _ _ (List.elem_eq_true_of_mem hmem)
  unfold getCol readJsonLines
  rw [if_pos hc]

/-- C5: For a nonempty event collection whose timestamps are in range
(every parser-built event is), `df_from_parsed_logs` returns exactly one
row per event in collection order; each row carries all flattened
`GeoInfo` columns (the proto3 defaults standing in for all-unknown geo
data) plus the derived columns: `date` the calendar date of the event
timestamp, `week` its ISO week number, `hour` its hour of day. -/
theorem df_projection (logs : List SSHLog) (hne : logs ≠ [])
    (hv : ∀ log ∈ logs, ValidDT log.timestamp) :
    dfFromParsedLogs logs = Except.ok (logs.map projectedRow) := by
  obtain ⟨l0, ls, rfl⟩ := List.exists_cons_of_ne_nil hne
  simp only [dfFromParsedLogs]
  rw [getCol_ip_ok l0 ls]
  refine congrArg Except.ok ?_
  simp only [readJsonLines, List.map_map]
  rw [List.zip_map', List.map_map]
  apply List.map_congr_left
  intro log hlog
  simp only [Function.comp]
  exact mkRow_roundtrip log (hv log hlog)

/-- C10: The projection does not return an empty table for an empty
event collection: precisely when no line matched, the serialized
newline-delimited JSON buffer is empty, `pd.read_json` turns it into a
column-less frame, and the `ipLookupData` column selection raises
`KeyError`; on every nonempty collection no such error occurs. -/
theorem df_empty_raises (logs : List SSHLog) :
    dfFromParsedLogs logs = Except.error PdErr.keyError ↔ logs = [] := by
  constructor
  · intro h
    by_contra hne
    obtain ⟨l0, ls, rfl⟩ := List.exists_cons_of_ne_nil hne
    simp only [dfFromParsedLogs] at h
    rw [getCol_ip_ok l0 ls] at h
    simp at h
  · intro h
    subst h
    rfl

/-- C5 witness: the singleton collection of the accepted §8 event. -/
theorem df_projection_witness :
    dfFromParsedLogs [evA] = Except.ok ([evA].map projectedRow) :=
  df_projection [evA] (by simp) (by decide)

/-- C10 witness: the empty collection raises `KeyError`. -/
theorem df_empty_raises_witness :
    dfFromParsedLogs [] = Except.error PdErr.keyError :=
  (df_empty_raises []).mpr rfl

theorem spanP_all (p : Char → Bool) (l : List Char) :
    ∀ c ∈ (spanP p l).1, p c = true := by
  induction l with
  | nil => simp [spanP]
  | cons c cs ih =>
    by_cases hp : p c
    · simp only [spanP, hp, if_true]
      intro d hd
      rcases List.mem_cons.mp hd with h | h
      · exact h ▸ hp
      · exact ih d h
    · simp [spanP, hp]

theorem matchPortTail_digits (l : List Char) (ds : List Char)
    (h : matchPortTail l = some ds) :
    ds ≠ [] ∧ ∀ c ∈ ds, isDigitChar c = true := by
  unfold matchPortTail at h
  cases l with
  | nil => simp at h
  | cons c r =>
    by_cases hs : isSpaceChar c
    · simp only [hs, if_true] at h
      cases hd : dropLit ("port".data) r with
      | none => rw [hd] at h; simp at h
      | some rr =>
        rw [hd] at h
        cases rr with
        | nil => simp at h
        | cons c2 r2 =>
          by_cases hs2 : isSpaceChar c2
          · simp only [hs2, if_true] at h
            cases hsp : spanP isDigitChar r2 with
            | mk ds2 rest =>
              rw [hsp] at h
              by_cases hne : ds2 = []
              · simp [hne] at h
              · simp only [hne, if_false] at h
                injection h with h0
                subst h0
                refine ⟨hne, ?_⟩
                have hall := spanP_all isDigitChar r2
                rw [hsp] at hall
                exact hall
          · simp [hs2] at h
    · simp [hs] at h

theorem matchHostPort_digits : ∀ (l hh p : List Char),
    matchHostPort l = some (hh, p) →
    p ≠ [] ∧ ∀ c ∈ p, isDigitChar c = true := by
  intro l
  induction l with
  | nil => intro hh p hx; simp [matchHostPort] at hx
  | cons c rest ih =>
    intro hh p hx
    unfold matchHostPort at hx
    by_cases hnl : c = '\n'
    · simp [hnl] at hx
    · simp only [hnl, if_false] at hx
      cases hr : matchHostPort rest with
      | some pr =>
        rw [hr] at hx
        obtain ⟨h2, p2⟩ := pr
        injection hx with hx0
        have hp : p2 = p := congrArg Prod.snd hx0
        exact hp ▸ ih h2 p2 hr
      | none =>
        rw [hr] at hx
        cases hpt : matchPortTail rest with
        | some pd =>
          rw [hpt] at hx
          injection hx with hx0
          have hp : pd = p := congrArg Prod.snd hx0
          exact hp ▸ matchPortTail_digits rest pd hpt
        | none => rw [hpt] at hx; simp at hx

theorem matchFromTail_digits (l hh p : List Char)
    (h : matchFromTail l = some (hh, p)) :
    p ≠ [] ∧ ∀ c ∈ p, isDigitChar c = true := by
  unfold matchFromTail at h
  cases l with
  | nil => simp at h
  | cons c r =>
    by_cases hs : isSpaceChar c
    · simp only [hs, if_true] at h
      cases hd : dropLit ("from".data) r with
      | none => rw [hd] at h; simp at h
      | some rr =>
        rw [hd] at h
        cases rr with
        | nil => simp at h
        | cons c2 r2 =>
          by_cases hs2 : isSpaceChar c2
          · simp only [hs2, if_true] at h
            exact matchHostPort_digits r2 hh p h
          · simp [hs2] at h
    · simp [hs] at h

theorem matchUserFrom_digits : ∀ (l u hh p : List Char),
    matchUserFrom l = some (u, hh, p) →
    p ≠ [] ∧ ∀ c ∈ p, isDigitChar c = true := by
  intro l
  induction l with
  | nil => intro u hh p hx; simp [matchUserFrom] at hx
  | cons c rest ih =>
    intro u hh p hx
    unfold matchUserFrom at hx
    by_cases hnl : c = '\n'
    · simp [hnl] at hx
    · simp only [hnl, if_false] at hx
      cases hf : matchFromTail rest with
      | some pr =>
        rw [hf] at hx
        obtain ⟨h2, p2⟩ := pr
        injection hx with hx0
        have hp : p2 = p := congrArg (fun t => t.2.2) hx0
        exact hp ▸ matchFromTail_digits rest h2 p2 hf
      | none =>
        rw [hf] at hx
        cases hm : matchUserFrom rest with
        | some tr =>
          rw [hm] at hx
          obtain ⟨u2, h2, p2⟩ := tr
          injection hx with hx0
          have hp : p2 = p := congrArg (fun t => t.2.2) hx0
          exact hp ▸ ih u2 h2 p2 hm
        | none => rw [hm] at hx; simp at hx

theorem matchInvalidUser_digits (l : List Char) (inv : Option (List Char))
    (u hh p : List Char) (h : matchInvalidUser l = some (inv, u, hh, p)) :
    p ≠ [] ∧ ∀ c ∈ p, isDigitChar c = true := by
  cases hlit : matchInvalidLit l with
  | some mr =>
    obtain ⟨marker, r⟩ := mr
    have hstep : matchInvalidUser l
        = (match matchUserFrom r with
           | some (u, h, p) => some (some marker, u, h, p)
           | Option.none =>
             match matchUserFrom l with
             | some (u, h, p) => some (Option.none, u, h, p)
             | Option.none => Option.none) := by
      unfold matchInvalidUser
      rw [hlit]
    rw [hstep] at h
    cases hu : matchUserFrom r with
    | some tr =>
      rw [hu] at h
      obtain ⟨u2, h2, p2⟩ := tr
      injection h with h0
      have hp : p2 = p := congrArg (fun t => t.2.2.2) h0
      exact hp ▸ matchUserFrom_digits r u2 h2 p2 hu
    | none =>
      rw [hu] at h
      cases hu2 : matchUserFrom l with
      | some tr =>
        rw [hu2] at h
        obtain ⟨u2, h2, p2⟩ := tr
        injection h with h0
        have hp : p2 = p := congrArg (fun t => t.2.2.2) h0
        exact hp ▸ matchUserFrom_digits l u2 h2 p2 hu2
      | none => rw [hu2] at h; simp at h
  | none =>
    have hstep : matchInvalidUser l
        = (match matchUserFrom l with
           | some (u, h, p) => some (Option.none, u, h, p)
           | Option.none => Option.none) := by
      unfold matchInvalidUser
      rw [hlit]
    rw [hstep] at h
    cases hu2 : matchUserFrom l with
    | some tr =>
      rw [hu2] at h
      obtain ⟨u2, h2, p2⟩ := tr
      injection h with h0
      have hp : p2 = p := congrArg (fun t => t.2.2.2) h0
      exact hp ▸ matchUserFrom_digits l u2 h2 p2 hu2
    | none => rw [hu2] at h; simp at h

theorem afterOutcome_digits (l : List Char) (inv : Option (List Char))
    (u hh p : List Char) (h : afterOutcome l = some (inv, u, hh, p)) :
    p ≠ [] ∧ ∀ c ∈ p, isDigitChar c = true := by
  unfold afterOutcome at h
  cases l with
  | nil => simp at h
  | cons c1 r1 =>
    by_cases hs : isSpaceChar c1
    · simp only [hs, if_true] at h
      cases hd : dropLit ("password".data) r1 with
      | none => rw [hd] at h; simp at h
      | some rr =>
        rw [hd] at h
        cases rr with
        | nil => simp at h
        | cons c2 r2 =>
          by_cases hs2 : isSpaceChar c2
          · simp only [hs2, if_true] at h
            cases hd2 : dropLit ("for".data) r2 with
            | none => rw [hd2] at h; simp at h
            | some rr2 =>
              rw [hd2] at h
              cases rr2 with
              | nil => simp at h
              | cons c3 r3 =>
                by_cases hs3 : isSpaceChar c3
                · simp only [hs3, if_true] at h
                  exact matchInvalidUser_digits r3 inv u hh p h
                · simp [hs3] at h
          · simp [hs2] at h
    · simp [hs] at h

theorem tryOutcome_digits (w : String) (l : List Char) (oc : String)
    (inv : Option (List Char)) (u hh p : List Char)
    (h : tryOutcome w l = some (oc, inv, u, hh, p)) :
    p ≠ [] ∧ ∀ c ∈ p, isDigitChar c = true := by
  obtain ⟨r, -, ha, -⟩ := tryOutcome_shape w l _ h
  exact afterOutcome_digits r inv u hh p ha

theorem matchOutcomeAt_digits (l : List Char) (oc : String)
    (inv : Option (List Char)) (u hh p : List Char)
    (h : matchOutcomeAt l = some (oc, inv, u, hh, p)) :
    p ≠ [] ∧ ∀ c ∈ p, isDigitChar c = true := by
  unfold matchOutcomeAt at h
  cases ht : tryOutcome "Failed" l with
  | some q =>
    rw [ht] at h
    injection h with h0
    rw [h0] at ht
    exact tryOutcome_digits "Failed" l oc inv u hh p ht
  | none =>
    rw [ht] at h
    exact tryOutcome_digits "Accepted" l oc inv u hh p h

theorem searchOutcome_digits : ∀ (l : List Char) (oc : String)
    (inv : Option (List Char)) (u hh p : List Char),
    searchOutcome l = some (oc, inv, u, hh, p) →
    p ≠ [] ∧ ∀ c ∈ p, isDigitChar c = true := by
  intro l
  induction l with
  | nil => intro oc inv u hh p hx; simp [searchOutcome] at hx
  | cons c rest ih =>
    intro oc inv u hh p hx
    unfold searchOutcome at hx
    cases hm : matchOutcomeAt (c :: rest) with
    | some q =>
      rw [hm] at hx
      obtain ⟨oc2, inv2, u2, h2, p2⟩ := q
      injection hx with h0
      have hp : p2 = p := congrArg (fun t => t.2.2.2.2) h0
      exact hp ▸ matchOutcomeAt_digits (c :: rest) oc2 inv2 u2 h2 p2 hm
    | none =>
      rw [hm] at hx
      by_cases hnl : c = '\n'
      · simp [hnl] at hx
      · simp only [hnl, if_false] at hx
        exact ih oc inv u hh p hx

/-- The pattern's port group captures a nonempty run of decimal digits
on every matching line, so the base-10 coercion `int(...)` (modelled by
the total `digitsToNat`) can never fail: the premise of the
malformed-port policy is unsatisfiable. -/
theorem reMatch_portDigits (line : String) (m : MatchedFields)
    (h : reMatch line = some m) :
    m.portDigits ≠ [] ∧ ∀ c ∈ m.portDigits, isDigitChar c = true := by
  cases hg : parseGroup1 line.data with
  | none =>
    have hstep : reMatch line = Option.none := by
      unfold reMatch reMatchL; rw [hg]
    rw [hstep] at h
    simp at h
  | some pr =>
    obtain ⟨ts, r⟩ := pr
    have hstep : reMatch line
        = (match searchOutcome r with
           | some (oc, inv, u, hh, p) => some ⟨ts, oc, inv, u, hh, p⟩
           | Option.none => Option.none) := by
      unfold reMatch reMatchL; rw [hg]
    rw [hstep] at h
    cases hs : searchOutcome r with
    | some q =>
      rw [hs] at h
      obtain ⟨oc, inv, u, hh, p⟩ := q
      injection h with h0
      have hp : p = m.portDigits := congrArg MatchedFields.portDigits h0
      exact hp ▸ searchOutcome_digits r oc inv u hh p hs
    | none => rw [hs] at h; simp at h
